import Mathlib

/-
Verification development for the ItmoParser repository.

The repository has two Python source files:
  src/app.py  - the Flask application: record model, filter/statistics engine
                (filter_applicants), extractor (parse_itmo_rating) and the
                in-memory cache (get_applicants_with_cache, parse_and_cache);
  src/main.py - a standalone script with its own simpler filter_applicants and
                its own parse_itmo_rating / parse_applicant_card.

This file gives a shallow embedding of both files.  Pure helpers become Lean
functions; Python exceptions become Option/Except; machine floats are
modelled as rationals; the HTTP fetch and the parsed DOM are modelled as
explicit inputs (an Except value for the transport outcome and a list of
Card field records for the selected blocks); wall-clock time and the thread
pool of the cache are modelled by explicit state passing (the returned
scheduled list records the submitted refresh tasks).
-/

/-! ### Models of the Python primitives used by the source -/

/-- Decimal value of a digit list, as computed by Python int parsing. -/
def digitsVal (l : List Char) : Nat :=
  l.foldl (fun n c => n * 10 + (c.toNat - 48)) 0

/-- Tests that a character list is a nonempty run of ASCII digits. -/
def allDigits (l : List Char) : Bool :=
  !l.isEmpty && l.all Char.isDigit

/-- Models the Python str.strip method: removes whitespace from both ends.
Defined structurally on the character list so that it evaluates inside the
kernel. -/
def pyStrip (s : String) : String :=
  String.mk
    (((s.data.dropWhile Char.isWhitespace).reverse.dropWhile
      Char.isWhitespace).reverse)

/-- Models the Python builtin int(str) on the plain decimal numerals this
page produces: optional surrounding whitespace, optional sign, digits.
Returns none where Python raises ValueError. -/
def pyInt? (s : String) : Option Int :=
  match (pyStrip s).data with
  | '-' :: rest => if allDigits rest then some (-(digitsVal rest : Int)) else none
  | '+' :: rest => if allDigits rest then some (digitsVal rest : Int) else none
  | l => if allDigits l then some (digitsVal l : Int) else none

/-- Unsigned part of the float model: digits with an optional decimal point.
The numeric value is exact (a rational); the binary rounding of Python
floats is idealised away, which is adequate for the order comparisons the
source performs. -/
def pyFloatMag (l : List Char) : Option ℚ :=
  let ip := l.takeWhile (fun c => c != '.')
  let rest := l.dropWhile (fun c => c != '.')
  match rest with
  | [] => if allDigits ip then some ((digitsVal ip : ℚ)) else none
  | _ :: fp =>
    if fp.all (fun c => c != '.') && ip.all Char.isDigit && fp.all Char.isDigit
        && !(ip.isEmpty && fp.isEmpty) then
      some ((digitsVal ip : ℚ) + (digitsVal fp : ℚ) / ((10 : ℚ) ^ fp.length))
    else none

/-- Models the Python builtin float(str) on the decimal numerals this page
produces (no exponent, infinity or nan forms).  Returns none where Python
raises ValueError, e.g. on "abc". -/
def pyFloat? (s : String) : Option ℚ :=
  match (pyStrip s).data with
  | '-' :: rest => (pyFloatMag rest).map (fun q => -q)
  | '+' :: rest => pyFloatMag rest
  | l => pyFloatMag l

/-- Models the Python str.lower method for ASCII and the basic Cyrillic
range, which covers every string the source compares. -/
def pyLowerChar (c : Char) : Char :=
  if 'A' ≤ c && c ≤ 'Z' then Char.ofNat (c.toNat + 32)
  else if 'А' ≤ c && c ≤ 'Я' then Char.ofNat (c.toNat + 32)
  else if c = 'Ё' then 'ё'
  else c

/-- Lowercases a string, modelling the Python str.lower method. -/
def pyLower (s : String) : String :=
  String.mk (s.data.map pyLowerChar)

/-- Contiguous-sublist test on character lists. -/
def listSub : List Char → List Char → Bool
  | n, [] => n.isEmpty
  | n, c :: t => List.isPrefixOf n (c :: t) || listSub n t

/-- Models the Python substring operator needle in haystack. -/
def pySubstr (needle haystack : String) : Bool :=
  listSub needle.data haystack.data

/-! ### Record model (src/app.py lines 43-56)

The dataclass Applicant.  The dataclass of src/main.py lines 7-19 is the
same record minus filtered_position; it is reused here with
filtered_position fixed to its default 0. -/

structure Applicant where
  position : Int
  application_id : String
  exam_type : String
  exam_id : Int
  exam_score : ℚ
  total_score : ℚ
  average_score : ℚ
  priority : Int
  ovp : Bool
  vpp : Bool
  consent : Bool
  filtered_position : Nat := 0
deriving DecidableEq, Repr

/-- Writes the filtered_position field, modelling the in-place mutation
performed at src/app.py line 142. -/
def setFP (a : Applicant) (k : Nat) : Applicant :=
  { a with filtered_position := k }

/-- Forgets the filtered_position field (sets it back to the dataclass
default), used to state frame properties about the other fields. -/
def eraseFP (a : Applicant) : Applicant :=
  { a with filtered_position := 0 }

/-! ### Filter engine (src/app.py lines 64-170) -/

/-- Embeds the inner function cmp of filter_applicants (lines 83-94):
operator dispatch for the numeric comparisons; an unknown operator string
compares as True. -/
def cmpVal (value : ℚ) (op : String) (ref : ℚ) : Bool :=
  if op = "ge" then decide (value ≥ ref)
  else if op = "g" then decide (value > ref)
  else if op = "le" then decide (value ≤ ref)
  else if op = "l" then decide (value < ref)
  else if op = "eq" then decide (value = ref)
  else true

/-- Embeds one tri-state boolean filter (lines 97-102): when the option is
set, keep the records whose projected flag equals it. -/
def triStep (proj : Applicant → Bool) (o : Option Bool) (l : List Applicant) :
    List Applicant :=
  match o with
  | none => l
  | some b => l.filter (fun a => proj a == b)

/-- Embeds the substring search on application_id (lines 103-104): active
when search_id is truthy and nonblank after strip; case-insensitive. -/
def searchStep (search_id : Option String) (l : List Applicant) : List Applicant :=
  match search_id with
  | none => l
  | some s =>
    if !s.data.isEmpty && !(pyStrip s).data.isEmpty then
      l.filter (fun a => pySubstr (pyLower (pyStrip s)) (pyLower a.application_id))
    else l

/-- Embeds the exam-type filter (lines 105-109): the sentinel "Все"
disables it, "БВИ" keeps the records whose exam_type differs from "ВЭ",
any other non-blank value is an exact equality filter. -/
def examTypeStep (exam_type : Option String) (l : List Applicant) : List Applicant :=
  match exam_type with
  | none => l
  | some s =>
    if !s.data.isEmpty && s != "Все" && !(pyStrip s).data.isEmpty then
      if s = "БВИ" then l.filter (fun a => a.exam_type != "ВЭ")
      else l.filter (fun a => a.exam_type == s)
    else l

/-- Embeds line 111, the simultaneous assignment of
min(priority_min, priority_max) and max(priority_min, priority_max).
The Python builtins min and max compare their arguments with the < operator
and raise TypeError when either argument is None; that crash is modelled by
the none result. -/
def priorityNorm (priority_min priority_max : Option Int) :
    Option (Int × Int) :=
  match priority_min, priority_max with
  | some a, some b => some (min a b, max a b)
  | _, _ => none

/-- Embeds line 113-114: lower priority bound, when present. -/
def priorityMinStep (priority_min : Option Int) (l : List Applicant) :
    List Applicant :=
  match priority_min with
  | none => l
  | some m => l.filter (fun a => decide (m ≤ a.priority))

/-- Embeds line 115-116: upper priority bound, when present. -/
def priorityMaxStep (priority_max : Option Int) (l : List Applicant) :
    List Applicant :=
  match priority_max with
  | none => l
  | some x => l.filter (fun a => decide (a.priority ≤ x))

/-- Embeds one numeric comparison block (lines 118-123, 125-130, 132-137):
active when both the operator and the value strings are truthy; the value
string is converted with float inside try/except, and a conversion failure
silently disables the comparison (the except: pass branch). -/
def scoreStep (proj : Applicant → ℚ) (op val : Option String)
    (l : List Applicant) : List Applicant :=
  match op, val with
  | some o, some v =>
    if !o.data.isEmpty && !v.data.isEmpty then
      match pyFloat? v with
      | some q => l.filter (fun a => cmpVal (proj a) o q)
      | none => l
    else l
  | _, _ => l

/-- Position order used by the sort at line 140. -/
def posLE (a b : Applicant) : Prop := a.position ≤ b.position

instance : DecidableRel posLE :=
  fun a b => inferInstanceAs (Decidable (a.position ≤ b.position))

instance : IsTotal Applicant posLE :=
  ⟨fun a b => Int.le_total a.position b.position⟩

instance : IsTrans Applicant posLE :=
  ⟨fun _ _ _ h₁ h₂ => le_trans h₁ h₂⟩

/-- Embeds line 140, sorted(filtered, key=lambda x: x.position).  The
Python sort is stable; it is embedded as insertion sort, which is
extensionally equal to every stable sort by the same key. -/
def sortByPosition (l : List Applicant) : List Applicant :=
  List.insertionSort posLE l

/-- Embeds lines 141-142: enumerate(filtered_sorted, 1) writing the 1-based
rank into filtered_position of each surviving record. -/
def assignPositions : Nat → List Applicant → List Applicant
  | _, [] => []
  | i, a :: rest => setFP a i :: assignPositions (i + 1) rest

/-- Result of the stats block: the empty dict (no query), the explicit
not_found dict, or the populated dict of line 153-159. -/
inductive StatsResult where
  | noQuery : StatsResult
  | notFound : StatsResult
  | found : Nat → Nat → Nat → Nat → Applicant → StatsResult
deriving DecidableEq, Repr

/-- Embeds line 150, next((i for i, a in enumerate(filtered_sorted) if
a.application_id == stats_id), None), together with the indexing
filtered_sorted[idx_myself]: first index whose application_id equals the
target, paired with that record. -/
def find_myself (sid : String) : List Applicant → Option (Nat × Applicant)
  | [] => none
  | a :: rest =>
    if a.application_id = sid then some (0, a)
    else (find_myself sid rest).map (fun p => (p.1 + 1, p.2))

/-- Embeds the stats block, lines 145-162: when stats_id is truthy and
nonblank after strip, locate the target in the filtered sorted order and
report the counts over the records before it, or the explicit not_found
marker. -/
def computeStats (stats_id : Option String) (filtered_sorted : List Applicant) :
    StatsResult × List Applicant :=
  match stats_id with
  | none => (.noQuery, [])
  | some s =>
    if !s.data.isEmpty && !(pyStrip s).data.isEmpty then
      let sid := pyStrip s
      match find_myself sid filtered_sorted with
      | some (i, me) =>
        let before_me := filtered_sorted.take i
        (.found before_me.length
          (before_me.filter (fun a => a.exam_type != "ВЭ")).length
          (before_me.filter (fun a => a.ovp)).length
          (before_me.filter (fun a => a.consent)).length
          me,
        before_me)
      | none => (.notFound, [])
    else (.noQuery, [])

/-- Predicate chain of filter_applicants, lines 81-137: the successive
list comprehensions reassigning filtered.  Returns none where line 111
raises TypeError (either priority bound unset). -/
def applyFilters (applicants : List Applicant)
    (ovp vpp consent : Option Bool)
    (search_id exam_type : Option String)
    (average_score_op average_score_val exam_score_op exam_score_val
      total_score_op total_score_val : Option String)
    (priority_min priority_max : Option Int) : Option (List Applicant) :=
  let filtered := applicants
  let filtered := triStep (fun a => a.ovp) ovp filtered
  let filtered := triStep (fun a => a.vpp) vpp filtered
  let filtered := triStep (fun a => a.consent) consent filtered
  let filtered := searchStep search_id filtered
  let filtered := examTypeStep exam_type filtered
  match priorityNorm priority_min priority_max with
  | none => none
  | some (m, x) =>
    let filtered := priorityMinStep (some m) filtered
    let filtered := priorityMaxStep (some x) filtered
    let filtered := scoreStep (fun a => a.average_score) average_score_op average_score_val filtered
    let filtered := scoreStep (fun a => a.exam_score) exam_score_op exam_score_val filtered
    let filtered := scoreStep (fun a => a.total_score) total_score_op total_score_val filtered
    some filtered

/-- Dictionary returned by filter_applicants, lines 164-170. -/
structure FilterResult where
  applicants : List Applicant
  total_count : Nat
  filtered_count : Nat
  stats : StatsResult
  stats_list : List Applicant
deriving DecidableEq, Repr

/-- Embeds filter_applicants of src/app.py lines 64-170: the predicate
chain, the stable sort by position with 1-based renumbering, the optional
stats block, and the result dictionary.  Returns none where the Python
function raises TypeError at line 111. -/
def filter_applicants (applicants : List Applicant)
    (ovp vpp consent : Option Bool)
    (search_id exam_type stats_id : Option String)
    (average_score_op average_score_val exam_score_op exam_score_val
      total_score_op total_score_val : Option String)
    (priority_min priority_max : Option Int) : Option FilterResult :=
  match applyFilters applicants ovp vpp consent search_id exam_type
      average_score_op average_score_val exam_score_op exam_score_val
      total_score_op total_score_val priority_min priority_max with
  | none => none
  | some filtered =>
    let filtered_sorted := assignPositions 1 (sortByPosition filtered)
    let st := computeStats stats_id filtered_sorted
    some { applicants := filtered_sorted
           total_count := applicants.length
           filtered_count := filtered.length
           stats := st.1
           stats_list := st.2 }

/-! ### Extractor

The HTTP fetch (requests.get plus raise_for_status) is modelled as an
explicit Except input: error carries the transport failure, ok carries the
document reduced to its selected candidate card blocks.  A Card holds the
text of each labelled sub-field as selected by the CSS queries, with none
when the selector finds no node (the Python code would then fail with an
attribute error on the None result). -/

structure Card where
  position_text : Option String
  application_id_text : Option String
  exam_type_text : Option String
  exam_id_text : Option String
  exam_score_text : Option String
  total_score_text : Option String
  average_score_text : Option String
  priority_text : Option String
  ovp_text : Option String
  vpp_text : Option String
  consent_text : Option String
deriving DecidableEq, Repr

/-- Error taxonomy of the extraction, one constructor per distinct raise
site in the source: transport failure or non-success response, the
zero-cards ValueError of src/main.py line 109, and a per-card parse
exception escaping src/main.py line 111. -/
inductive ParseError where
  | fetchError : String → ParseError
  | noRecords : ParseError
  | cardError : ParseError
deriving DecidableEq, Repr

namespace App

/-- Embeds the per-card body of the loop at src/app.py lines 183-203:
every required field is selected and converted; the surrounding
try/except (lines 183, 204-206) turns any missing selector or failed
conversion into a skip, modelled by none. -/
def parse_card (card : Card) : Option Applicant :=
  match card.position_text, card.application_id_text, card.exam_type_text,
      card.exam_id_text, card.exam_score_text, card.total_score_text,
      card.average_score_text, card.priority_text, card.ovp_text,
      card.vpp_text, card.consent_text with
  | some ptext, some idtext, some ettext, some eidtext, some estext,
    some tstext, some astext, some prtext, some ovptext, some vpptext,
    some cstext =>
    match pyInt? (pyStrip ptext), pyInt? eidtext, pyFloat? estext, pyFloat? tstext,
        pyFloat? astext, pyInt? prtext with
    | some position, some exam_id, some exam_score, some total_score,
      some average_score, some priority =>
      some (Applicant.mk position (pyStrip idtext) (pyStrip ettext) exam_id exam_score
        total_score average_score priority (pyLower (pyStrip ovptext) == "да")
        (pyLower (pyStrip vpptext) == "да") (pyLower (pyStrip cstext) == "да") 0)
    | _, _, _, _, _, _ => none
  | _, _, _, _, _, _, _, _, _, _, _ => none

/-- Embeds parse_itmo_rating of src/app.py lines 174-210.  A transport
failure is re-raised by the outer except as the wrapped exception; on a
retrieved document every card is parsed with per-card failure isolation
(lines 182-206) and the survivors are returned, with no check that any
card was found. -/
def parse_itmo_rating (fetched : Except String (List Card)) :
    Except ParseError (List Applicant) :=
  match fetched with
  | .error e => .error (.fetchError e)
  | .ok cards => .ok (cards.filterMap parse_card)

end App

namespace Main

/-- Embeds parse_applicant_card of src/main.py lines 47-87.  Unlike the
app.py loop body there is no per-card exception handler here; none models
the exception that then propagates to the caller of the comprehension.
The average-score selector alone is optional: a missing span falls back to
0.0 (line 66). -/
def parse_applicant_card (card : Card) : Option Applicant :=
  match card.position_text, card.application_id_text, card.priority_text,
      card.exam_type_text, card.exam_id_text, card.exam_score_text,
      card.total_score_text, card.ovp_text, card.vpp_text,
      card.consent_text with
  | some ptext, some idtext, some prtext, some ettext, some eidtext,
    some estext, some tstext, some ovptext, some vpptext, some cstext =>
    match pyInt? (pyStrip ptext), pyInt? prtext, pyInt? eidtext, pyFloat? estext,
        pyFloat? tstext,
        (match card.average_score_text with
          | none => some (0 : ℚ)
          | some t => pyFloat? t) with
    | some position, some priority, some exam_id, some exam_score,
      some total_score, some average_score =>
      some (Applicant.mk position (pyStrip idtext) (pyStrip ettext) exam_id exam_score
        total_score average_score priority (pyLower (pyStrip ovptext) == "да")
        (pyLower (pyStrip vpptext) == "да") (pyLower (pyStrip cstext) == "да") 0)
    | _, _, _, _, _, _ => none
  | _, _, _, _, _, _, _, _, _, _ => none

/-- Embeds filter_applicants of src/main.py lines 22-44: the three
tri-state flag filters followed by the sort by position. -/
def filter_applicants (applicants : List Applicant)
    (ovp vpp consent : Option Bool) : List Applicant :=
  let filtered := applicants
  let filtered := triStep (fun a => a.ovp) ovp filtered
  let filtered := triStep (fun a => a.vpp) vpp filtered
  let filtered := triStep (fun a => a.consent) consent filtered
  sortByPosition filtered

/-- Embeds parse_itmo_rating of src/main.py lines 90-125: transport
failure is re-raised wrapped; a document with zero candidate blocks raises
ValueError (line 108-109); the cards are parsed by a comprehension with no
per-card isolation (line 111), so one bad card aborts the extraction; the
optional flag filters are applied at the end (lines 114-120). -/
def parse_itmo_rating (fetched : Except String (List Card))
    (ovp_filter vpp_filter consent_filter : Option Bool) :
    Except ParseError (List Applicant) :=
  match fetched with
  | .error e => .error (.fetchError e)
  | .ok cards =>
    if cards.isEmpty then .error .noRecords
    else
      match cards.mapM parse_applicant_card with
      | none => .error .cardError
      | some applicants =>
        if ovp_filter.isSome || vpp_filter.isSome || consent_filter.isSome then
          .ok (filter_applicants applicants ovp_filter vpp_filter consent_filter)
        else .ok applicants

end Main

/-! ### Cache (src/app.py lines 9-40)

The cache dictionary is an association list with at most one entry per
URL; wall-clock time is an explicit Int parameter; the extraction outcome
that requests would produce is an explicit Except parameter; the thread
pool submission is recorded in the scheduled list of the outcome. -/

abbrev CacheMap := List (String × Int × List Applicant)

/-- Dictionary lookup, app_data cached_applicants get(url). -/
def cacheLookup : CacheMap → String → Option (Int × List Applicant)
  | [], _ => none
  | (u, e) :: rest, url => if u = url then some e else cacheLookup rest url

/-- Dictionary store, app_data cached_applicants [url] = entry. -/
def cacheStore : CacheMap → String → Int × List Applicant → CacheMap
  | [], url, e => [(url, e)]
  | (u, e0) :: rest, url, e =>
    if u = url then (url, e) :: rest else (u, e0) :: cacheStore rest url e

/-- Embeds CACHE_TTL = 5 * 60 (src/app.py line 40). -/
def CACHE_TTL : Int := 5 * 60

/-- Outcome of one cache interaction: what is returned or raised, the cache
afterwards, and the refresh tasks submitted to the executor. -/
structure CacheOutcome where
  result : Except ParseError (List Applicant)
  cache : CacheMap
  scheduled : List String
deriving Repr

/-- Embeds parse_and_cache of src/app.py lines 11-16, the body of a
background refresh task: a successful extraction replaces the entry, a
failed one is swallowed by the except branch and leaves the cache as it
was. -/
def parse_and_cache (cache : CacheMap) (url : String) (now : Int)
    (parsed : Except ParseError (List Applicant)) : CacheMap :=
  match parsed with
  | .ok applicants => cacheStore cache url (now, applicants)
  | .error _ => cache

/-- Embeds get_applicants_with_cache of src/app.py lines 18-28: a fresh
entry is returned unchanged; a stale entry is returned immediately while a
refresh for that url is submitted to the executor; a miss extracts
synchronously, stores on success and propagates a failure. -/
def get_applicants_with_cache (cache : CacheMap) (url : String) (now : Int)
    (parsed : Except ParseError (List Applicant)) : CacheOutcome :=
  match cacheLookup cache url with
  | some (ts, data) =>
    if now - ts < CACHE_TTL then ⟨.ok data, cache, []⟩
    else ⟨.ok data, cache, [url]⟩
  | none =>
    match parsed with
    | .ok data => ⟨.ok data, cacheStore cache url (now, data), []⟩
    | .error e => ⟨.error e, cache, []⟩

/-- Value of the filtered list built by lines 97-137 once line 111 has
normalised both priority bounds to m and x. -/
def filteredChain (applicants : List Applicant)
    (ovp vpp consent : Option Bool)
    (search_id exam_type : Option String)
    (average_score_op average_score_val exam_score_op exam_score_val
      total_score_op total_score_val : Option String)
    (m x : Int) : List Applicant :=
  scoreStep (fun a => a.total_score) total_score_op total_score_val
    (scoreStep (fun a => a.exam_score) exam_score_op exam_score_val
      (scoreStep (fun a => a.average_score) average_score_op average_score_val
        (priorityMaxStep (some x)
          (priorityMinStep (some m)
            (examTypeStep exam_type
              (searchStep search_id
                (triStep (fun a => a.consent) consent
                  (triStep (fun a => a.vpp) vpp
                    (triStep (fun a => a.ovp) ovp applicants)))))))))

/-- Conjunction of every active predicate of the filter specification, as
the spec states them: an unset field imposes no constraint, the sentinel
and blank exam-type values impose none, and a numeric comparison is active
only when its operator and value are truthy and the value parses. -/
def activePreds (ovp vpp consent : Option Bool)
    (search_id exam_type : Option String)
    (average_score_op average_score_val exam_score_op exam_score_val
      total_score_op total_score_val : Option String)
    (priority_min priority_max : Option Int) (a : Applicant) : Prop :=
  (∀ b, ovp = some b → a.ovp = b) ∧
  (∀ b, vpp = some b → a.vpp = b) ∧
  (∀ b, consent = some b → a.consent = b) ∧
  (∀ s, search_id = some s → (!s.data.isEmpty && !(pyStrip s).data.isEmpty) = true →
    pySubstr (pyLower (pyStrip s)) (pyLower a.application_id) = true) ∧
  (∀ s, exam_type = some s →
    (!s.data.isEmpty && s != "Все" && !(pyStrip s).data.isEmpty) = true →
    (if s = "БВИ" then a.exam_type ≠ "ВЭ" else a.exam_type = s)) ∧
  (∀ m0 x0, priority_min = some m0 → priority_max = some x0 →
    min m0 x0 ≤ a.priority ∧ a.priority ≤ max m0 x0) ∧
  (∀ o v q, average_score_op = some o → average_score_val = some v →
    (!o.data.isEmpty && !v.data.isEmpty) = true → pyFloat? v = some q →
    cmpVal a.average_score o q = true) ∧
  (∀ o v q, exam_score_op = some o → exam_score_val = some v →
    (!o.data.isEmpty && !v.data.isEmpty) = true → pyFloat? v = some q →
    cmpVal a.exam_score o q = true) ∧
  (∀ o v q, total_score_op = some o → total_score_val = some v →
    (!o.data.isEmpty && !v.data.isEmpty) = true → pyFloat? v = some q →
    cmpVal a.total_score o q = true)

/-- Builds an applicant record with the given position, id, exam type,
priority and flags, zero scores, used as concrete test data. -/
def wA (pos : Int) (pid et : String) (prio : Int) (o v c : Bool) : Applicant :=
  Applicant.mk pos pid et 0 0 0 0 prio o v c 0

instance : DecidableEq (Except ParseError (List Applicant)) := fun a b =>
  match a, b with
  | .ok x, .ok y =>
    if h : x = y then .isTrue (by rw [h]) else .isFalse (fun hc => h (Except.ok.inj hc))
  | .ok _, .error _ => .isFalse (fun hc => Except.noConfusion hc)
  | .error _, .ok _ => .isFalse (fun hc => Except.noConfusion hc)
  | .error x, .error y =>
    if h : x = y then .isTrue (by rw [h]) else .isFalse (fun hc => h (Except.error.inj hc))

/-- Conclusion of claim C2 for a given call of filter_applicants that
returned a result: the counts are consistent and every returned record
satisfies every active predicate of the specification. -/
def C2Holds (applicants : List Applicant)
    (ovp vpp consent : Option Bool) (search_id exam_type : Option String)
    (aop aval eop evv top2 tvv : Option String)
    (pm px : Option Int) (r : FilterResult) : Prop :=
  r.total_count = applicants.length ∧
  r.filtered_count = r.applicants.length ∧
  r.filtered_count ≤ r.total_count ∧
  ∀ a ∈ r.applicants,
    activePreds ovp vpp consent search_id exam_type aop aval eop evv top2 tvv
      pm px a

/-- Builds a well-formed candidate card whose position text is the given
numeral, used as concrete test data. -/
def wCard (n : String) : Card :=
  Card.mk (some n) (some ("id" ++ n)) (some "ВЭ") (some "5") (some "70")
    (some "75") (some "4") (some "1") (some "Да") (some "Нет") (some "Да")

/-- A malformed candidate card: its exam id text does not parse as an
integer. -/
def wBadCard : Card :=
  { wCard "6" with exam_id_text := some "abc" }

/-- A six-card document: five well-formed cards and one malformed card. -/
def wDoc6 : List Card :=
  [wCard "1", wCard "2", wCard "3", wCard "4", wCard "5", wBadCard]

/-- The record extracted from wCard n when its position numeral has value
k. -/
def wRec (k : Int) (n : String) : Applicant :=
  Applicant.mk k ("id" ++ n) "ВЭ" 5 70 75 4 1 true false true 0

/-- Conclusion of claim C10 for a call of filter_applicants that returned
a result: every returned record agrees with some input record on every
field except filteredPosition, and as a multiset the returned records
(filteredPosition disregarded) are a permutation of a sublist of the
input, so each input record is used at most once. -/
def C10Holds (applicants : List Applicant) (r : FilterResult) : Prop :=
  (∀ a ∈ r.applicants, ∃ b ∈ applicants, eraseFP a = eraseFP b) ∧
  ∃ l, List.Sublist l applicants ∧
    List.Perm (r.applicants.map eraseFP) (l.map eraseFP)

/-! ### Helper lemmas about the filter steps -/

@[simp] lemma setFP_position (a : Applicant) (k : Nat) : (setFP a k).position = a.position := rfl

@[simp] lemma setFP_application_id (a : Applicant) (k : Nat) :
    (setFP a k).application_id = a.application_id := rfl

@[simp] lemma setFP_filtered_position (a : Applicant) (k : Nat) :
    (setFP a k).filtered_position = k := rfl

@[simp] lemma eraseFP_setFP (a : Applicant) (k : Nat) : eraseFP (setFP a k) = eraseFP a := rfl

lemma triStep_sublist (proj : Applicant → Bool) (o : Option Bool) (l : List Applicant) :
    List.Sublist (triStep proj o l) l := by
  cases o with
  | none => exact List.Sublist.refl l
  | some b => exact List.filter_sublist l

lemma searchStep_sublist (sid : Option String) (l : List Applicant) :
    List.Sublist (searchStep sid l) l := by
  cases sid with
  | none => exact List.Sublist.refl l
  | some s =>
    simp only [searchStep]
    split
    · exact List.filter_sublist l
    · exact List.Sublist.refl l

lemma examTypeStep_sublist (et : Option String) (l : List Applicant) :
    List.Sublist (examTypeStep et l) l := by
  cases et with
  | none => exact List.Sublist.refl l
  | some s =>
    simp only [examTypeStep]
    split
    · split
      · exact List.filter_sublist l
      · exact List.filter_sublist l
    · exact List.Sublist.refl l

lemma priorityMinStep_sublist (o : Option Int) (l : List Applicant) :
    List.Sublist (priorityMinStep o l) l := by
  cases o with
  | none => exact List.Sublist.refl l
  | some m => exact List.filter_sublist l

lemma priorityMaxStep_sublist (o : Option Int) (l : List Applicant) :
    List.Sublist (priorityMaxStep o l) l := by
  cases o with
  | none => exact List.Sublist.refl l
  | some x => exact List.filter_sublist l

lemma scoreStep_sublist (proj : Applicant → ℚ) (op val : Option String)
    (l : List Applicant) : List.Sublist (scoreStep proj op val l) l := by
  cases op with
  | none => exact List.Sublist.refl l
  | some o =>
    cases val with
    | none => exact List.Sublist.refl l
    | some v =>
      simp only [scoreStep]
      split
      · split
        · exact List.filter_sublist l
        · exact List.Sublist.refl l
      · exact List.Sublist.refl l

lemma mem_triStep {a : Applicant} {proj : Applicant → Bool} {o : Option Bool}
    {l : List Applicant} (h : a ∈ triStep proj o l) :
    a ∈ l ∧ ∀ b, o = some b → proj a = b := by
  cases o with
  | none => exact ⟨h, by simp⟩
  | some b =>
    simp only [triStep, List.mem_filter, beq_iff_eq] at h
    exact ⟨h.1, fun c hc => by cases hc; exact h.2⟩

lemma mem_searchStep {a : Applicant} {sid : Option String} {l : List Applicant}
    (h : a ∈ searchStep sid l) :
    a ∈ l ∧ ∀ s, sid = some s → (!s.data.isEmpty && !(pyStrip s).data.isEmpty) = true →
      pySubstr (pyLower (pyStrip s)) (pyLower a.application_id) = true := by
  cases sid with
  | none => exact ⟨h, by simp⟩
  | some s =>
    simp only [searchStep] at h
    by_cases hc : (!s.data.isEmpty && !(pyStrip s).data.isEmpty) = true
    · rw [if_pos hc] at h
      simp only [List.mem_filter] at h
      exact ⟨h.1, fun t ht _ => by cases ht; exact h.2⟩
    · rw [if_neg hc] at h
      exact ⟨h, fun t ht hcc => by cases ht; exact absurd hcc hc⟩

lemma mem_examTypeStep {a : Applicant} {et : Option String} {l : List Applicant}
    (h : a ∈ examTypeStep et l) :
    a ∈ l ∧ ∀ s, et = some s → (!s.data.isEmpty && s != "Все" && !(pyStrip s).data.isEmpty) = true →
      (if s = "БВИ" then a.exam_type ≠ "ВЭ" else a.exam_type = s) := by
  cases et with
  | none => exact ⟨h, by simp⟩
  | some s =>
    simp only [examTypeStep] at h
    by_cases hc : (!s.data.isEmpty && s != "Все" && !(pyStrip s).data.isEmpty) = true
    · rw [if_pos hc] at h
      by_cases hb : s = "БВИ"
      · rw [if_pos hb] at h
        simp only [List.mem_filter, bne_iff_ne, ne_eq] at h
        refine ⟨h.1, fun t ht _ => ?_⟩
        cases ht
        rw [if_pos hb]
        exact h.2
      · rw [if_neg hb] at h
        simp only [List.mem_filter, beq_iff_eq] at h
        refine ⟨h.1, fun t ht _ => ?_⟩
        cases ht
        rw [if_neg hb]
        exact h.2
    · rw [if_neg hc] at h
      exact ⟨h, fun t ht hcc => by cases ht; exact absurd hcc hc⟩

lemma mem_priorityMinStep {a : Applicant} {o : Option Int} {l : List Applicant}
    (h : a ∈ priorityMinStep o l) :
    a ∈ l ∧ ∀ m, o = some m → m ≤ a.priority := by
  cases o with
  | none => exact ⟨h, by simp⟩
  | some m =>
    simp only [priorityMinStep, List.mem_filter, decide_eq_true_eq] at h
    exact ⟨h.1, fun c hc => by cases hc; exact h.2⟩

lemma mem_priorityMaxStep {a : Applicant} {o : Option Int} {l : List Applicant}
    (h : a ∈ priorityMaxStep o l) :
    a ∈ l ∧ ∀ x, o = some x → a.priority ≤ x := by
  cases o with
  | none => exact ⟨h, by simp⟩
  | some x =>
    simp only [priorityMaxStep, List.mem_filter, decide_eq_true_eq] at h
    exact ⟨h.1, fun c hc => by cases hc; exact h.2⟩

lemma mem_scoreStep {a : Applicant} {proj : Applicant → ℚ} {op val : Option String}
    {l : List Applicant} (h : a ∈ scoreStep proj op val l) :
    a ∈ l ∧ ∀ o v q, op = some o → val = some v →
      (!o.data.isEmpty && !v.data.isEmpty) = true → pyFloat? v = some q →
      cmpVal (proj a) o q = true := by
  cases op with
  | none => exact ⟨h, by simp⟩
  | some o =>
    cases val with
    | none => exact ⟨h, by simp⟩
    | some v =>
      simp only [scoreStep] at h
      by_cases hc : (!o.data.isEmpty && !v.data.isEmpty) = true
      · rw [if_pos hc] at h
        cases hq : pyFloat? v with
        | none =>
          rw [hq] at h
          refine ⟨h, fun o2 v2 q ho hv _ hq2 => ?_⟩
          cases ho; cases hv
          rw [hq] at hq2; cases hq2
        | some q =>
          rw [hq] at h
          simp only [List.mem_filter] at h
          refine ⟨h.1, fun o2 v2 q2 ho hv _ hq2 => ?_⟩
          cases ho; cases hv
          rw [hq] at hq2
          cases hq2
          exact h.2
      · rw [if_neg hc] at h
        exact ⟨h, fun o2 v2 q ho hv hcc _ => by cases ho; cases hv; exact absurd hcc hc⟩

/-! ### The predicate chain of applyFilters, characterised -/

lemma applyFilters_eq_chain (applicants : List Applicant)
    (ovp vpp consent : Option Bool) (search_id exam_type : Option String)
    (aop aval eop evv top2 tvv : Option String) (m0 x0 : Int) :
    applyFilters applicants ovp vpp consent search_id exam_type
      aop aval eop evv top2 tvv (some m0) (some x0)
    = some (filteredChain applicants ovp vpp consent search_id exam_type
        aop aval eop evv top2 tvv (min m0 x0) (max m0 x0)) := rfl

lemma applyFilters_some_shape {applicants : List Applicant}
    {ovp vpp consent : Option Bool} {search_id exam_type : Option String}
    {aop aval eop evv top2 tvv : Option String} {pm px : Option Int}
    {fl : List Applicant}
    (h : applyFilters applicants ovp vpp consent search_id exam_type
      aop aval eop evv top2 tvv pm px = some fl) :
    ∃ m0 x0, pm = some m0 ∧ px = some x0 ∧
      fl = filteredChain applicants ovp vpp consent search_id exam_type
        aop aval eop evv top2 tvv (min m0 x0) (max m0 x0) := by
  cases pm with
  | none =>
    exfalso
    cases px <;> simp [applyFilters, priorityNorm] at h
  | some m0 =>
    cases px with
    | none => exfalso; simp [applyFilters, priorityNorm] at h
    | some x0 =>
      rw [applyFilters_eq_chain] at h
      exact ⟨m0, x0, rfl, rfl, (Option.some.inj h).symm⟩

lemma filteredChain_sublist (applicants : List Applicant)
    (ovp vpp consent : Option Bool) (search_id exam_type : Option String)
    (aop aval eop evv top2 tvv : Option String) (m x : Int) :
    List.Sublist (filteredChain applicants ovp vpp consent search_id exam_type
      aop aval eop evv top2 tvv m x) applicants := by
  unfold filteredChain
  exact ((((((((((scoreStep_sublist _ _ _ _).trans
    (scoreStep_sublist _ _ _ _)).trans
    (scoreStep_sublist _ _ _ _)).trans
    (priorityMaxStep_sublist _ _)).trans
    (priorityMinStep_sublist _ _)).trans
    (examTypeStep_sublist _ _)).trans
    (searchStep_sublist _ _)).trans
    (triStep_sublist _ _ _)).trans
    (triStep_sublist _ _ _)).trans
    (triStep_sublist _ _ _))

lemma mem_filteredChain_activePreds {applicants : List Applicant}
    {ovp vpp consent : Option Bool} {search_id exam_type : Option String}
    {aop aval eop evv top2 tvv : Option String} {m0 x0 : Int} {a : Applicant}
    (h : a ∈ filteredChain applicants ovp vpp consent search_id exam_type
      aop aval eop evv top2 tvv (min m0 x0) (max m0 x0)) :
    a ∈ applicants ∧ activePreds ovp vpp consent search_id exam_type
      aop aval eop evv top2 tvv (some m0) (some x0) a := by
  unfold filteredChain at h
  obtain ⟨h, htv⟩ := mem_scoreStep h
  obtain ⟨h, hev⟩ := mem_scoreStep h
  obtain ⟨h, hav⟩ := mem_scoreStep h
  obtain ⟨h, hx⟩ := mem_priorityMaxStep h
  obtain ⟨h, hm⟩ := mem_priorityMinStep h
  obtain ⟨h, het⟩ := mem_examTypeStep h
  obtain ⟨h, hs⟩ := mem_searchStep h
  obtain ⟨h, hco⟩ := mem_triStep h
  obtain ⟨h, hvp⟩ := mem_triStep h
  obtain ⟨h, hov⟩ := mem_triStep h
  refine ⟨h, hov, hvp, hco, hs, het, ?_, hav, hev, htv⟩
  intro m1 x1 hm1 hx1
  cases hm1; cases hx1
  exact ⟨hm _ rfl, hx _ rfl⟩

/-! ### Helper lemmas about sorting and renumbering -/

lemma length_assignPositions (i : Nat) (l : List Applicant) :
    (assignPositions i l).length = l.length := by
  induction l generalizing i with
  | nil => rfl
  | cons a t ih => simp [assignPositions, ih]

lemma mem_assignPositions {a : Applicant} {i : Nat} {l : List Applicant}
    (h : a ∈ assignPositions i l) : ∃ b ∈ l, ∃ k, a = setFP b k := by
  induction l generalizing i with
  | nil => cases h
  | cons b t ih =>
    simp only [assignPositions, List.mem_cons] at h
    rcases h with h | h
    · exact ⟨b, List.mem_cons_self b t, i, h⟩
    · obtain ⟨c, hc, k, hk⟩ := ih h
      exact ⟨c, List.mem_cons_of_mem b hc, k, hk⟩

lemma map_fp_assignPositions (i : Nat) (l : List Applicant) :
    (assignPositions i l).map (fun a => a.filtered_position)
      = List.range' i l.length := by
  induction l generalizing i with
  | nil => rfl
  | cons a t ih => simp [assignPositions, List.range', ih]

lemma map_eraseFP_assignPositions (i : Nat) (l : List Applicant) :
    (assignPositions i l).map eraseFP = l.map eraseFP := by
  induction l generalizing i with
  | nil => rfl
  | cons a t ih => simp [assignPositions, ih, eraseFP_setFP]

lemma pairwise_pos_assignPositions (i : Nat) (l : List Applicant)
    (h : List.Pairwise posLE l) :
    List.Pairwise (fun x y => x.position ≤ y.position) (assignPositions i l) := by
  induction l generalizing i with
  | nil => exact List.Pairwise.nil
  | cons a t ih =>
    rcases h with _ | ⟨ha, ht⟩
    refine List.Pairwise.cons ?_ (ih (i + 1) ht)
    intro y hy
    obtain ⟨b, hb, k, hk⟩ := mem_assignPositions hy
    subst hk
    simpa using ha b hb

lemma filter_pos_assignPositions (k : Int) (i : Nat) (l : List Applicant) :
    ((assignPositions i l).filter (fun a => a.position == k)).map eraseFP
      = (l.filter (fun a => a.position == k)).map eraseFP := by
  induction l generalizing i with
  | nil => rfl
  | cons a t ih =>
    by_cases hp : (a.position == k) = true
    · have hp2 : ((setFP a i).position == k) = true := hp
      simp only [assignPositions, List.filter_cons, hp, hp2, if_true,
        List.map_cons, eraseFP_setFP]
      rw [ih (i + 1)]
    · have hp' : (a.position == k) = false := by simpa using hp
      have hp2 : ((setFP a i).position == k) = false := hp'
      simp only [assignPositions, List.filter_cons, hp', hp2,
        Bool.false_eq_true, if_false]
      exact ih (i + 1)

lemma sortByPosition_perm (l : List Applicant) :
    List.Perm (sortByPosition l) l :=
  List.perm_insertionSort posLE l

lemma sortByPosition_pairwise (l : List Applicant) :
    List.Pairwise posLE (sortByPosition l) :=
  List.sorted_insertionSort posLE l

lemma filter_pos_orderedInsert (k : Int) (a : Applicant) :
    ∀ s : List Applicant,
      (List.orderedInsert posLE a s).filter (fun x => x.position == k)
        = if (a.position == k) = true then
            a :: s.filter (fun x => x.position == k)
          else s.filter (fun x => x.position == k)
  | [] => by
    by_cases hp : (a.position == k) = true
    · simp [List.orderedInsert, List.filter_cons, hp]
    · have hp' : (a.position == k) = false := by simpa using hp
      simp [List.orderedInsert, List.filter_cons, hp']
  | b :: t => by
    simp only [List.orderedInsert]
    by_cases hab : posLE a b
    · rw [if_pos hab]
      by_cases hp : (a.position == k) = true
      · simp [List.filter_cons, hp]
      · have hp' : (a.position == k) = false := by simpa using hp
        simp [List.filter_cons, hp']
    · rw [if_neg hab]
      by_cases hpb : (b.position == k) = true
      · by_cases hp : (a.position == k) = true
        · exfalso
          apply hab
          have hbk : b.position = k := by simpa using hpb
          have hak : a.position = k := by simpa using hp
          show a.position ≤ b.position
          rw [hbk, hak]
        · have hp' : (a.position == k) = false := by simpa using hp
          simp only [List.filter_cons, hpb, if_true,
            filter_pos_orderedInsert k a t, hp', Bool.false_eq_true, if_false]
      · have hpb' : (b.position == k) = false := by simpa using hpb
        by_cases hp : (a.position == k) = true
        · simp only [List.filter_cons, hpb', Bool.false_eq_true, if_false,
            filter_pos_orderedInsert k a t, hp, if_true]
        · have hp' : (a.position == k) = false := by simpa using hp
          simp only [List.filter_cons, hpb', Bool.false_eq_true, if_false,
            filter_pos_orderedInsert k a t, hp']

lemma filter_pos_sortByPosition (k : Int) (l : List Applicant) :
    (sortByPosition l).filter (fun x => x.position == k)
      = l.filter (fun x => x.position == k) := by
  unfold sortByPosition
  induction l with
  | nil => rfl
  | cons a t ih =>
    show (List.orderedInsert posLE a (List.insertionSort posLE t)).filter _ = _
    rw [filter_pos_orderedInsert]
    by_cases hp : (a.position == k) = true
    · simp only [hp, if_true, List.filter_cons, ih]
    · have hp' : (a.position == k) = false := by simpa using hp
      simp only [hp', Bool.false_eq_true, if_false, List.filter_cons, ih]

/-! ### Helper lemmas about the stats lookup and the extractor -/

lemma find_myself_eq_none {sid : String} {l : List Applicant}
    (h : ∀ b ∈ l, b.application_id ≠ sid) : find_myself sid l = none := by
  induction l with
  | nil => rfl
  | cons a t ih =>
    simp only [find_myself, if_neg (h a (List.mem_cons_self a t))]
    rw [ih (fun b hb => h b (List.mem_cons_of_mem a hb))]
    rfl

lemma find_myself_append {sid : String} {l₁ l₂ : List Applicant} {a : Applicant}
    (h₁ : ∀ b ∈ l₁, b.application_id ≠ sid) (h₂ : a.application_id = sid) :
    find_myself sid (l₁ ++ a :: l₂) = some (l₁.length, a) := by
  induction l₁ with
  | nil =>
    simp only [List.nil_append, find_myself, if_pos h₂, List.length_nil]
  | cons b t ih =>
    simp only [List.cons_append, find_myself,
      if_neg (h₁ b (List.mem_cons_self b t))]
    rw [List.append_eq, ih (fun c hc => h₁ c (List.mem_cons_of_mem b hc))]
    rfl

lemma length_filterMap_countP (f : Card → Option Applicant) (l : List Card) :
    (l.filterMap f).length = l.countP (fun c => (f c).isSome) := by
  induction l with
  | nil => rfl
  | cons c t ih =>
    cases hc : f c with
    | none => simp [List.filterMap_cons, List.countP_cons, hc, ih]
    | some a => simp [List.filterMap_cons, List.countP_cons, hc, ih]

/-! ### Concrete data used by the closed theorems and witnesses -/

/-- C1: the spec says the priority range filter normalises its bounds so
that min is at most max regardless of the order given, and that each bound
is independently optional, filtering still succeeding with an unset bound
imposing no constraint.  The normalisation half is real: with both bounds
set to 10 and 3 the code keeps exactly the records whose priority lies in
the inclusive range 3..10.  The optional half contradicts the code: line
111 calls min and max on the raw values before the None checks of lines
113-116, and the Python builtins raise TypeError on None, so any call with
an unset bound fails instead of succeeding (the embedding returns none
there).  The None checks at lines 113-116 are unreachable dead code,
showing the claim matches the intent and line 111 is the slip. -/
theorem spec_C1 :
    filter_applicants [wA 1 "a" "ВЭ" 1 true false true]
      none none none none none none none none none none none none
      none (some 3) = none ∧
    filter_applicants
      [wA 2 "b" "ВЭ" 5 true false true, wA 1 "a" "БВИ" 1 false true false,
        wA 3 "c" "ОЭ" 11 true true true]
      none none none none none none none none none none none none
      (some 10) (some 3)
    = some { applicants := [setFP (wA 2 "b" "ВЭ" 5 true false true) 1]
             total_count := 3
             filtered_count := 1
             stats := .noQuery
             stats_list := [] } :=
  ⟨rfl, rfl⟩

/-- C2: for every record list and filter specification on which
filter_applicants returns a result, totalCount is the input size,
filteredCount is the size of the surviving list, filteredCount is at most
totalCount, and every record of the returned ordered list satisfies every
predicate that is active in the specification. -/
theorem spec_C2 (applicants : List Applicant)
    (ovp vpp consent : Option Bool)
    (search_id exam_type stats_id : Option String)
    (aop aval eop evv top2 tvv : Option String)
    (pm px : Option Int) (r : FilterResult)
    (h : filter_applicants applicants ovp vpp consent search_id exam_type
      stats_id aop aval eop evv top2 tvv pm px = some r) :
    C2Holds applicants ovp vpp consent search_id exam_type
      aop aval eop evv top2 tvv pm px r := by
  unfold filter_applicants at h
  cases hA : applyFilters applicants ovp vpp consent search_id exam_type
      aop aval eop evv top2 tvv pm px with
  | none => rw [hA] at h; cases h
  | some fl =>
    rw [hA] at h
    obtain ⟨m0, x0, hpm, hpx, hfl⟩ := applyFilters_some_shape hA
    subst hpm; subst hpx; subst hfl
    have hr := (Option.some.inj h).symm
    subst hr
    refine ⟨rfl, ?_, ?_, ?_⟩
    · show _ = (assignPositions 1 _).length
      rw [length_assignPositions]
      simp [sortByPosition]
    · exact (filteredChain_sublist applicants ovp vpp consent search_id
        exam_type aop aval eop evv top2 tvv _ _).length_le
    · intro a ha
      obtain ⟨b, hb, k, hk⟩ := mem_assignPositions ha
      subst hk
      have hb2 : b ∈ filteredChain applicants ovp vpp consent search_id
          exam_type aop aval eop evv top2 tvv (min m0 x0) (max m0 x0) :=
        (sortByPosition_perm _).subset hb
      exact (mem_filteredChain_activePreds hb2).2

/-- Witness for C2 at a concrete input. -/
theorem spec_C2_witness :
    C2Holds [wA 2 "b" "ВЭ" 5 true false true] (some true) none none
      none none none none none none none none (some 1) (some 10)
      { applicants := [setFP (wA 2 "b" "ВЭ" 5 true false true) 1]
        total_count := 1
        filtered_count := 1
        stats := .noQuery
        stats_list := [] } :=
  spec_C2 [wA 2 "b" "ВЭ" 5 true false true] (some true) none none
    none none none none none none none none none (some 1) (some 10) _ rfl

/-- C3: for every call of filter_applicants that returns a result, the
ordered list is stably sorted ascending by position and the
filteredPosition values are exactly 1..filteredCount in that order:
the list is pairwise ordered by position, the map of filteredPosition is
the contiguous range starting at 1 (no gaps, no repeats, freshly
assigned), and for every position key k the records with position k appear
exactly as in the unsorted filtered list (stability), up to the
renumbering of filteredPosition. -/
theorem spec_C3 (applicants : List Applicant)
    (ovp vpp consent : Option Bool)
    (search_id exam_type stats_id : Option String)
    (aop aval eop evv top2 tvv : Option String)
    (pm px : Option Int) (fl : List Applicant) (r : FilterResult) (k : Int)
    (hf : applyFilters applicants ovp vpp consent search_id exam_type
      aop aval eop evv top2 tvv pm px = some fl)
    (h : filter_applicants applicants ovp vpp consent search_id exam_type
      stats_id aop aval eop evv top2 tvv pm px = some r) :
    List.Pairwise (fun x y : Applicant => x.position ≤ y.position)
      r.applicants ∧
    r.applicants.map (fun a => a.filtered_position)
      = List.range' 1 r.filtered_count ∧
    (r.applicants.filter (fun a => a.position == k)).map eraseFP
      = (fl.filter (fun a => a.position == k)).map eraseFP := by
  unfold filter_applicants at h
  rw [hf] at h
  have hr := (Option.some.inj h).symm
  subst hr
  refine ⟨?_, ?_, ?_⟩
  · exact pairwise_pos_assignPositions 1 _ (sortByPosition_pairwise fl)
  · show (assignPositions 1 (sortByPosition fl)).map _ = _
    rw [map_fp_assignPositions]
    have hlen : (sortByPosition fl).length = fl.length := by
      simp [sortByPosition]
    rw [hlen]
  · show ((assignPositions 1 (sortByPosition fl)).filter _).map eraseFP = _
    rw [filter_pos_assignPositions, filter_pos_sortByPosition]

/-- Witness for C3 at a concrete unsorted input. -/
theorem spec_C3_witness :
    List.Pairwise (fun x y : Applicant => x.position ≤ y.position)
      [setFP (wA 1 "a" "БВИ" 1 false true false) 1,
        setFP (wA 2 "b" "ВЭ" 5 true false true) 2] ∧
    ([setFP (wA 1 "a" "БВИ" 1 false true false) 1,
        setFP (wA 2 "b" "ВЭ" 5 true false true) 2].map
      (fun a => a.filtered_position)) = List.range' 1 2 ∧
    (([setFP (wA 1 "a" "БВИ" 1 false true false) 1,
        setFP (wA 2 "b" "ВЭ" 5 true false true) 2].filter
      (fun a => a.position == 1)).map eraseFP)
      = (([wA 2 "b" "ВЭ" 5 true false true,
          wA 1 "a" "БВИ" 1 false true false].filter
        (fun a => a.position == 1)).map eraseFP) := by
  have h := spec_C3
    [wA 2 "b" "ВЭ" 5 true false true, wA 1 "a" "БВИ" 1 false true false]
    none none none none none none none none none none none none
    (some 1) (some 10)
    [wA 2 "b" "ВЭ" 5 true false true, wA 1 "a" "БВИ" 1 false true false]
    { applicants := [setFP (wA 1 "a" "БВИ" 1 false true false) 1,
        setFP (wA 2 "b" "ВЭ" 5 true false true) 2]
      total_count := 2
      filtered_count := 2
      stats := .noQuery
      stats_list := [] }
    1 rfl rfl
  exact h

/-- C4: the exam-type filter imposes no constraint when unset or set to
the sentinel "Все"; set to "БВИ" it keeps exactly the records whose
exam_type differs from "ВЭ" rather than matching the label "БВИ"; any
other non-blank, non-sentinel value keeps exactly the records whose
exam_type equals it. -/
theorem spec_C4 (l : List Applicant) (s : String)
    (hcond : (!s.data.isEmpty && s != "Все" && !(pyStrip s).data.isEmpty) = true)
    (hb : s ≠ "БВИ") :
    examTypeStep none l = l ∧
    examTypeStep (some "Все") l = l ∧
    examTypeStep (some "БВИ") l = l.filter (fun a => a.exam_type != "ВЭ") ∧
    examTypeStep (some s) l = l.filter (fun a => a.exam_type == s) := by
  refine ⟨rfl, ?_, ?_, ?_⟩
  · simp only [examTypeStep]
    rw [show (!("Все" : String).data.isEmpty && ("Все" : String) != "Все"
      && !(pyStrip "Все").data.isEmpty) = false from by decide]
    simp
  · simp only [examTypeStep]
    rw [show (!("БВИ" : String).data.isEmpty && ("БВИ" : String) != "Все"
      && !(pyStrip "БВИ").data.isEmpty) = true from by decide]
    simp
  · simp only [examTypeStep]
    rw [hcond]
    simp only [if_true]
    rw [if_neg hb]

/-- Witness for C4 at a concrete exam-type value and record list. -/
theorem spec_C4_witness :
    examTypeStep none
      [wA 1 "a" "ВЭ" 1 true false true, wA 2 "b" "Маг" 1 false true false]
      = [wA 1 "a" "ВЭ" 1 true false true, wA 2 "b" "Маг" 1 false true false] ∧
    examTypeStep (some "Все")
      [wA 1 "a" "ВЭ" 1 true false true, wA 2 "b" "Маг" 1 false true false]
      = [wA 1 "a" "ВЭ" 1 true false true, wA 2 "b" "Маг" 1 false true false] ∧
    examTypeStep (some "БВИ")
      [wA 1 "a" "ВЭ" 1 true false true, wA 2 "b" "Маг" 1 false true false]
      = ([wA 1 "a" "ВЭ" 1 true false true,
          wA 2 "b" "Маг" 1 false true false].filter
        (fun a => a.exam_type != "ВЭ")) ∧
    examTypeStep (some "Маг")
      [wA 1 "a" "ВЭ" 1 true false true, wA 2 "b" "Маг" 1 false true false]
      = ([wA 1 "a" "ВЭ" 1 true false true,
          wA 2 "b" "Маг" 1 false true false].filter
        (fun a => a.exam_type == "Маг")) :=
  spec_C4
    [wA 1 "a" "ВЭ" 1 true false true, wA 2 "b" "Маг" 1 false true false]
    "Маг" (by decide) (by decide)

/-- C5: when the cohort target is non-empty after trimming, a filtered
ordered list in which no record carries the trimmed target id yields the
explicit not-found marker, never a zero cohort; and when the first match
sits after exactly the prefix records, the cohort reports the size of that
prefix, the counts of prefix records with exam_type other than "ВЭ", with
ovp set and with consent set, together with the matching record itself. -/
theorem spec_C5 (l₁ l₂ : List Applicant) (a : Applicant) (s : String)
    (hcond : (!s.data.isEmpty && !(pyStrip s).data.isEmpty) = true)
    (h₁ : ∀ b ∈ l₁, b.application_id ≠ pyStrip s)
    (h₂ : a.application_id = pyStrip s) :
    computeStats (some s) l₁ = (.notFound, []) ∧
    computeStats (some s) (l₁ ++ a :: l₂)
      = (.found l₁.length
          (l₁.filter (fun x => x.exam_type != "ВЭ")).length
          (l₁.filter (fun x => x.ovp)).length
          (l₁.filter (fun x => x.consent)).length a,
        l₁) := by
  constructor
  · simp only [computeStats]
    rw [hcond]
    simp only [if_true]
    rw [find_myself_eq_none h₁]
  · simp only [computeStats]
    rw [hcond]
    simp only [if_true]
    rw [find_myself_append h₁ h₂]
    simp only [List.take_left]

/-- Witness for C5: the target "2" in a three-record filtered order, and a
list without it. -/
theorem spec_C5_witness :
    computeStats (some "2") [wA 1 "1" "ВЭ" 1 true false true]
      = (.notFound, []) ∧
    computeStats (some "2")
      [wA 1 "1" "ВЭ" 1 true false true, wA 2 "2" "БВИ" 1 false true false,
        wA 3 "3" "ОЭ" 1 true true true]
      = (.found 1 0 1 1 (wA 2 "2" "БВИ" 1 false true false),
        [wA 1 "1" "ВЭ" 1 true false true]) := by
  have h := spec_C5 [wA 1 "1" "ВЭ" 1 true false true]
    [wA 3 "3" "ОЭ" 1 true true true] (wA 2 "2" "БВИ" 1 false true false)
    "2" (by decide) (by decide) (by decide)
  exact h

/-- C6 counterexample: the claim says every extraction with zero candidate
blocks fails with NoRecordsError, but the web-app extraction
(src/app.py parse_itmo_rating) returns the empty record list on a
successfully retrieved empty document. -/
theorem spec_C6_cex :
    App.parse_itmo_rating (Except.ok ([] : List Card))
      = Except.ok ([] : List Applicant) ∧
    App.parse_itmo_rating (Except.ok ([] : List Card))
      ≠ Except.error ParseError.noRecords :=
  ⟨rfl, fun hc => Except.noConfusion hc⟩

/-- C6 as amended: a transport failure surfaces as the fetch error from
both extraction functions; on a retrieved document with zero candidate
blocks, the standalone extraction (src/main.py) fails with the
no-records error while the web-app extraction (src/app.py) returns the
empty record list instead of failing. -/
theorem spec_C6 (e : String) (ov vp co : Option Bool) :
    App.parse_itmo_rating (Except.error e)
      = Except.error (ParseError.fetchError e) ∧
    Main.parse_itmo_rating (Except.error e) ov vp co
      = Except.error (ParseError.fetchError e) ∧
    Main.parse_itmo_rating (Except.ok ([] : List Card)) ov vp co
      = Except.error ParseError.noRecords ∧
    App.parse_itmo_rating (Except.ok ([] : List Card))
      = Except.ok ([] : List Applicant) :=
  ⟨rfl, rfl, rfl, rfl⟩

/-- C7 counterexample: the claim says every extraction of a document with
five well-formed cards and one malformed card yields exactly the five
records without raising, but the standalone extraction
(src/main.py parse_itmo_rating, whose card loop at line 111 has no
per-card handler) raises on the malformed card instead. -/
theorem spec_C7_cex :
    Main.parse_itmo_rating (Except.ok wDoc6) none none none
      = Except.error ParseError.cardError ∧
    Main.parse_itmo_rating (Except.ok wDoc6) none none none
      ≠ Except.ok [wRec 1 "1", wRec 2 "2", wRec 3 "3", wRec 4 "4", wRec 5 "5"] := by
  refine ⟨rfl, ?_⟩
  intro hc
  rw [show Main.parse_itmo_rating (Except.ok wDoc6) none none none
      = Except.error ParseError.cardError from rfl] at hc
  exact Except.noConfusion hc

/-- C7 as amended: the web-app extraction (src/app.py) skips every card
in which a required field is missing or fails to parse, returns exactly
the records of the well-formed cards and raises nothing, so the
five-good-one-bad document yields exactly the five records; the
standalone extraction (src/main.py) instead fails as a whole on the first
malformed card. -/
theorem spec_C7 (cards : List Card) :
    App.parse_itmo_rating (Except.ok cards)
      = Except.ok (cards.filterMap App.parse_card) ∧
    (cards.filterMap App.parse_card).length
      = cards.countP (fun c => (App.parse_card c).isSome) ∧
    App.parse_itmo_rating (Except.ok wDoc6)
      = Except.ok [wRec 1 "1", wRec 2 "2", wRec 3 "3", wRec 4 "4", wRec 5 "5"] ∧
    Main.parse_itmo_rating (Except.ok wDoc6) none none none
      = Except.error ParseError.cardError :=
  ⟨rfl, length_filterMap_countP _ _, rfl, rfl⟩

lemma scoreStep_none (proj : Applicant → ℚ) (l : List Applicant) :
    scoreStep proj none none l = l := rfl

lemma scoreStep_unparseable (proj : Applicant → ℚ) (o v : String)
    (hv : pyFloat? v = none) (l : List Applicant) :
    scoreStep proj (some o) (some v) l = l := by
  simp [scoreStep, hv]

/-- C8: a numeric comparison whose value string does not parse as a float
is silently disabled: the comparison step leaves every record list
unchanged for each of the three score fields, and the whole
filter_applicants call returns exactly what it returns with that
comparison unset, so every other active predicate still applies and no
error is raised. -/
theorem spec_C8 (applicants : List Applicant)
    (ovp vpp consent : Option Bool)
    (search_id exam_type stats_id : Option String)
    (eop evv top2 tvv : Option String) (pm px : Option Int)
    (o v : String) (hv : pyFloat? v = none) :
    scoreStep (fun a => a.average_score) (some o) (some v) applicants
      = applicants ∧
    scoreStep (fun a => a.exam_score) (some o) (some v) applicants
      = applicants ∧
    scoreStep (fun a => a.total_score) (some o) (some v) applicants
      = applicants ∧
    filter_applicants applicants ovp vpp consent search_id exam_type stats_id
      (some o) (some v) eop evv top2 tvv pm px
    = filter_applicants applicants ovp vpp consent search_id exam_type stats_id
      none none eop evv top2 tvv pm px := by
  refine ⟨scoreStep_unparseable _ o v hv _, scoreStep_unparseable _ o v hv _,
    scoreStep_unparseable _ o v hv _, ?_⟩
  cases pm with
  | none => cases px <;> rfl
  | some m0 =>
    cases px with
    | none => rfl
    | some x0 =>
      simp only [filter_applicants, applyFilters_eq_chain, filteredChain,
        scoreStep_none, scoreStep_unparseable _ o v hv]

/-- Witness for C8: the unparseable value "abc". -/
theorem spec_C8_witness :
    scoreStep (fun a => a.average_score) (some "ge") (some "abc")
      [wA 1 "a" "ВЭ" 1 true false true] = [wA 1 "a" "ВЭ" 1 true false true] ∧
    scoreStep (fun a => a.exam_score) (some "ge") (some "abc")
      [wA 1 "a" "ВЭ" 1 true false true] = [wA 1 "a" "ВЭ" 1 true false true] ∧
    scoreStep (fun a => a.total_score) (some "ge") (some "abc")
      [wA 1 "a" "ВЭ" 1 true false true] = [wA 1 "a" "ВЭ" 1 true false true] ∧
    filter_applicants [wA 1 "a" "ВЭ" 1 true false true]
      (some true) none none none none none
      (some "ge") (some "abc") none none none none (some 1) (some 10)
    = filter_applicants [wA 1 "a" "ВЭ" 1 true false true]
      (some true) none none none none none
      none none none none none none (some 1) (some 10) :=
  spec_C8 [wA 1 "a" "ВЭ" 1 true false true] (some true) none none
    none none none none none none none (some 1) (some 10) "ge" "abc" rfl

/-- C9: for a cache holding an entry for the url, a fresh hit (age below
TTL) returns the cached records with the cache unchanged and nothing
scheduled; a stale hit (age at or beyond TTL) returns the stale cached
records immediately, also leaving the cache unchanged, while scheduling
exactly one refresh for that url; and a background refresh whose
extraction fails leaves the cache exactly as it was. -/
theorem spec_C9 (cache : CacheMap) (url : String) (ts now₁ now₂ now₃ : Int)
    (data : List Applicant) (p₁ p₂ : Except ParseError (List Applicant))
    (e : ParseError)
    (hentry : cacheLookup cache url = some (ts, data))
    (hfresh : now₁ - ts < CACHE_TTL)
    (hstale : CACHE_TTL ≤ now₂ - ts) :
    get_applicants_with_cache cache url now₁ p₁
      = ⟨Except.ok data, cache, []⟩ ∧
    get_applicants_with_cache cache url now₂ p₂
      = ⟨Except.ok data, cache, [url]⟩ ∧
    parse_and_cache cache url now₃ (Except.error e) = cache := by
  refine ⟨?_, ?_, rfl⟩
  · simp only [get_applicants_with_cache, hentry]
    rw [if_pos hfresh]
  · simp only [get_applicants_with_cache, hentry]
    rw [if_neg (not_lt.mpr hstale)]

/-- Witness for C9 at a concrete cache, a fresh and a stale timestamp. -/
theorem spec_C9_witness :
    get_applicants_with_cache [("u", 7, [wA 1 "a" "ВЭ" 1 true false true])]
      "u" 10 (Except.error ParseError.cardError)
      = ⟨Except.ok [wA 1 "a" "ВЭ" 1 true false true],
        [("u", 7, [wA 1 "a" "ВЭ" 1 true false true])], []⟩ ∧
    get_applicants_with_cache [("u", 7, [wA 1 "a" "ВЭ" 1 true false true])]
      "u" 307 (Except.error ParseError.cardError)
      = ⟨Except.ok [wA 1 "a" "ВЭ" 1 true false true],
        [("u", 7, [wA 1 "a" "ВЭ" 1 true false true])], ["u"]⟩ ∧
    parse_and_cache [("u", 7, [wA 1 "a" "ВЭ" 1 true false true])] "u" 310
      (Except.error ParseError.noRecords)
      = [("u", 7, [wA 1 "a" "ВЭ" 1 true false true])] :=
  spec_C9 [("u", 7, [wA 1 "a" "ВЭ" 1 true false true])] "u" 7 10 307 310
    [wA 1 "a" "ВЭ" 1 true false true]
    (Except.error ParseError.cardError) (Except.error ParseError.cardError)
    ParseError.noRecords rfl (by decide) (by decide)

/-- C10: filter_applicants changes no field of any record except
filteredPosition, and its ordered result is drawn from the input records,
each at most once: modulo the filteredPosition renumbering the returned
list is a permutation of a sublist of the input list. -/
theorem spec_C10 (applicants : List Applicant)
    (ovp vpp consent : Option Bool)
    (search_id exam_type stats_id : Option String)
    (aop aval eop evv top2 tvv : Option String)
    (pm px : Option Int) (r : FilterResult)
    (h : filter_applicants applicants ovp vpp consent search_id exam_type
      stats_id aop aval eop evv top2 tvv pm px = some r) :
    C10Holds applicants r := by
  unfold filter_applicants at h
  cases hA : applyFilters applicants ovp vpp consent search_id exam_type
      aop aval eop evv top2 tvv pm px with
  | none => rw [hA] at h; cases h
  | some fl =>
    rw [hA] at h
    obtain ⟨m0, x0, hpm, hpx, hfl⟩ := applyFilters_some_shape hA
    have hsub : List.Sublist fl applicants := by
      rw [hfl]
      exact filteredChain_sublist applicants ovp vpp consent search_id
        exam_type aop aval eop evv top2 tvv _ _
    have hr := (Option.some.inj h).symm
    subst hr
    constructor
    · intro a ha
      obtain ⟨b, hb, k, hk⟩ := mem_assignPositions ha
      subst hk
      exact ⟨b, hsub.subset ((sortByPosition_perm fl).subset hb),
        eraseFP_setFP b k⟩
    · refine ⟨fl, hsub, ?_⟩
      show List.Perm ((assignPositions 1 (sortByPosition fl)).map eraseFP) _
      rw [map_eraseFP_assignPositions]
      exact (sortByPosition_perm fl).map eraseFP

/-- Witness for C10 at a concrete input. -/
theorem spec_C10_witness :
    C10Holds
      [wA 2 "b" "ВЭ" 5 true false true, wA 1 "a" "БВИ" 1 false true false]
      { applicants := [setFP (wA 1 "a" "БВИ" 1 false true false) 1,
          setFP (wA 2 "b" "ВЭ" 5 true false true) 2]
        total_count := 2
        filtered_count := 2
        stats := .noQuery
        stats_list := [] } :=
  spec_C10
    [wA 2 "b" "ВЭ" 5 true false true, wA 1 "a" "БВИ" 1 false true false]
    none none none none none none none none none none none none
    (some 1) (some 10) _ rfl
